import Mathlib

/-!
Shallow embedding of the routing/fallback core of go-llm-router:
the router loop (`router.go`), the per-provider quota state machine and the
tool-call relay of the function-calling provider (`internal/providers/mcp.go`),
and the daily-quota check of the Gemini and OpenRouter providers
(`internal/providers/gemini.go`, the OpenRouter provider file).
Go `int` fields are modelled as `Int`, Go `time.Time`/`time.Duration` as `Int`
nanoseconds, Go `float64` temperature (never computed with, only passed
through) as `Rat`, and fallible calls as `Except String`.
-/

set_option autoImplicit false

namespace LLMRouter

/-- Data model: `provider.File` (provider/provider.go). The byte slice is a
list of byte values. -/
structure File where
  ftype : String
  data : List Nat
  mimeType : String
  name : String
deriving Repr, DecidableEq

/-- Data model: `provider.Message` (provider/provider.go). -/
structure Message where
  role : String
  content : String
  files : List File
deriving Repr, DecidableEq

/-- Data model: `provider.ToolCallFunction` (provider/provider.go). The
`Arguments map[string]interface{}` payload is opaque to the router and is
modelled as an association list of strings. -/
structure ToolCallFunction where
  name : String
  arguments : List (String × String)
deriving Repr, DecidableEq

/-- Data model: `provider.ToolCall` (provider/provider.go). -/
structure ToolCall where
  id : String
  callType : String
  function : ToolCallFunction
deriving Repr, DecidableEq

/-- Data model: `provider.ToolCallResult` (provider/provider.go). The
`Content interface{}` field is opaque to the relay and modelled as a string. -/
structure ToolCallResult where
  id : String
  resultType : String
  content : String
deriving Repr, DecidableEq

/-- Data model: `provider.ToolFunction` (provider/provider.go); the JSON-schema
parameters are opaque to the router and modelled as a string. -/
structure ToolFunction where
  name : String
  description : String
  parameters : String
deriving Repr, DecidableEq

/-- Data model: `provider.Tool` (provider/provider.go). -/
structure Tool where
  toolType : String
  function : ToolFunction
deriving Repr, DecidableEq

/-- Data model: `provider.QueryOptions` (provider/provider.go). The `float64`
temperature is only ever passed through, never computed with, so it is
modelled as an exact rational. -/
structure QueryOptions where
  temperature : Rat
  forceModel : String
  tools : List Tool
  toolChoice : String
deriving Repr, DecidableEq

/-- Data model: `provider.QueryResult` (provider/provider.go). -/
structure QueryResult where
  content : String
  model : String
  toolCalls : List ToolCall
  finishReason : String
deriving Repr, DecidableEq

/-! ## Quota state machine of `FunctionCallingProvider` (internal/providers/mcp.go) -/

/-- One minute in nanoseconds (Go `time.Minute`). -/
def nsPerMinute : Int := 60 * 1000000000

/-- Twenty-four hours in nanoseconds (Go `24 * time.Hour`). -/
def nsPerDay : Int := 24 * 60 * 60 * 1000000000

/-- Go `t.Truncate(d)`: round `t` down to a multiple of `d` (for `d > 0`). -/
def timeTruncate (t d : Int) : Int := t - t % d

/-- Mutable fields of `FunctionCallingProvider` that the quota/rate logic
reads and writes (internal/providers/mcp.go, struct fields). Timestamps are
nanoseconds since the epoch. -/
structure FunctionCallingState where
  maxDailyRequests : Int
  maxRequestsPerMinute : Int
  maxTokensPerMinute : Int
  rank : Int
  requestsToday : Int
  requestsThisMinute : Int
  tokensThisMinute : Int
  lastReset : Int
  lastMinuteReset : Int
deriving Repr, DecidableEq

/-- `FunctionCallingProvider.HasRemainingRequests` (mcp.go lines 260-267):
reset the daily counter when more than 24h elapsed since `lastReset`, then
report `maxDailyRequests == 0 || requestsToday < maxDailyRequests`.
Returns the reported capacity together with the updated state. -/
def hasRemainingRequests (now : Int) (f : FunctionCallingState) :
    Bool × FunctionCallingState :=
  let f := if now - f.lastReset > nsPerDay then
      { f with requestsToday := 0, lastReset := timeTruncate now nsPerDay }
    else f
  ((f.maxDailyRequests == 0) || decide (f.requestsToday < f.maxDailyRequests), f)

/-- `FunctionCallingProvider.HasRemainingRequestsPerMinute` (mcp.go lines
270-278): reset both per-minute counters when more than one minute elapsed
since `lastMinuteReset`, then report
`maxRequestsPerMinute == 0 || requestsThisMinute < maxRequestsPerMinute`. -/
def hasRemainingRequestsPerMinute (now : Int) (f : FunctionCallingState) :
    Bool × FunctionCallingState :=
  let f := if now - f.lastMinuteReset > nsPerMinute then
      { f with requestsThisMinute := 0, tokensThisMinute := 0,
               lastMinuteReset := timeTruncate now nsPerMinute }
    else f
  ((f.maxRequestsPerMinute == 0) ||
     decide (f.requestsThisMinute < f.maxRequestsPerMinute), f)

/-- `FunctionCallingProvider.HasRemainingTokensPerMinute` (mcp.go lines
281-289): reset both per-minute counters when more than one minute elapsed,
then report `maxTokensPerMinute == 0 || tokensThisMinute + estimated <=
maxTokensPerMinute`. -/
def hasRemainingTokensPerMinute (now : Int) (estimatedTokens : Int)
    (f : FunctionCallingState) : Bool × FunctionCallingState :=
  let f := if now - f.lastMinuteReset > nsPerMinute then
      { f with requestsThisMinute := 0, tokensThisMinute := 0,
               lastMinuteReset := timeTruncate now nsPerMinute }
    else f
  ((f.maxTokensPerMinute == 0) ||
     decide (f.tokensThisMinute + estimatedTokens <= f.maxTokensPerMinute), f)

/-- `FunctionCallingProvider.GetRank` (mcp.go lines 292-294). -/
def getRank (f : FunctionCallingState) : Int := f.rank

/-! ## Gemini and OpenRouter daily checks -/

/-- Mutable quota fields of `GeminiProvider` (internal/providers/gemini.go). -/
structure GeminiState where
  maxDailyRequests : Int
  requestsToday : Int
  lastReset : Int
deriving Repr, DecidableEq

/-- `GeminiProvider.HasRemainingRequests` (gemini.go lines 349-351):
`return g.requestsToday < g.maxDailyRequests` — no reset and, unlike the
other two providers, no `maxDailyRequests == 0` sentinel branch. -/
def geminiHasRemainingRequests (g : GeminiState) : Bool :=
  decide (g.requestsToday < g.maxDailyRequests)

/-- Mutable quota fields of `OpenRouterProvider` (OpenRouter provider file,
struct fields). -/
structure OpenRouterState where
  maxDailyRequests : Int
  maxRequestsPerMinute : Int
  maxTokensPerMinute : Int
  rank : Int
  requestsToday : Int
  requestsThisMinute : Int
  tokensThisMinute : Int
  lastReset : Int
  lastMinuteReset : Int
deriving Repr, DecidableEq

/-- `OpenRouterProvider.HasRemainingRequests` (OpenRouter provider file,
lines 227-234): identical daily logic to the function-calling provider,
including the zero sentinel. -/
def openRouterHasRemainingRequests (now : Int) (o : OpenRouterState) :
    Bool × OpenRouterState :=
  let o := if now - o.lastReset > nsPerDay then
      { o with requestsToday := 0, lastReset := timeTruncate now nsPerDay }
    else o
  ((o.maxDailyRequests == 0) || decide (o.requestsToday < o.maxDailyRequests), o)

/-! ## `FunctionCallingProvider.makeRequest` and the tool-call relay (mcp.go) -/

/-- One element of the `choices` array of the backend's JSON response
(mcp.go lines 225-233). -/
structure Choice where
  content : String
  toolCalls : List ToolCall
  finishReason : String
deriving Repr, DecidableEq

/-- Body of an HTTP response, as far as `makeRequest` inspects it: either the
JSON fails to unmarshal, or it parses to a list of choices. -/
inductive ResponseBody where
  | malformed
  | parsed (choices : List Choice)
deriving Repr, DecidableEq

/-- Outcome of one HTTP round trip as observed by `makeRequest`: either the
transport fails (request creation / body read), or a status code and body
arrive. -/
inductive HTTPOutcome where
  | transportError (msg : String)
  | response (status : Int) (body : ResponseBody)
deriving Repr, DecidableEq

/-- `FunctionCallingProvider.makeRequest` (mcp.go lines 195-252), with the
HTTP exchange abstracted as an `HTTPOutcome`. On a transport error or a
non-200 status it returns an error and leaves the state alone; on a 200
status it increments `requestsToday` and `requestsThisMinute` and only then
parses the body, failing on malformed JSON or an empty `choices` array.
`tokensThisMinute` is never touched. -/
def makeRequest (f : FunctionCallingState) (model : String)
    (http : HTTPOutcome) : Except String QueryResult × FunctionCallingState :=
  match http with
  | .transportError msg => (.error ("failed to create request: " ++ msg), f)
  | .response status body =>
    if status != 200 then
      (.error ("API request failed with status " ++ toString status), f)
    else
      let f := { f with requestsToday := f.requestsToday + 1,
                        requestsThisMinute := f.requestsThisMinute + 1 }
      match body with
      | .malformed => (.error "failed to parse response", f)
      | .parsed [] => (.error "no response choices received", f)
      | .parsed (choice :: _) =>
        (.ok { content := choice.content, model := model,
               toolCalls := choice.toolCalls,
               finishReason := choice.finishReason }, f)

/-- The provider-facing wire message: either an ordinary chat message
(mcp.go lines 103-123) or the synthetic `role: "tool"` message carrying the
relay's tool results (mcp.go lines 166-169). -/
inductive ApiMessage where
  | chat (role content : String) (files : List File)
  | toolResultsMessage (results : List ToolCallResult)
deriving Repr, DecidableEq

/-- Conversion of one `provider.Message` to the wire format
(mcp.go lines 102-123). -/
def toApiMessage (m : Message) : ApiMessage := .chat m.role m.content m.files

/-- The tool-execution loop of the relay (mcp.go lines 152-161): execute each
tool call through the executor, drop (only log) the ones whose execution
fails, and collect the successful results in order. A caller-supplied
executor is a function returning `none` exactly when `ExecuteTool` errors. -/
def executeToolCalls (exec : ToolCall → Option ToolCallResult)
    (toolCalls : List ToolCall) : List ToolCallResult :=
  toolCalls.filterMap exec

/-- How one iteration of the per-model loop in
`FunctionCallingProvider.QueryWithOptions` ends: `done r` for
`return r, nil` and `nextModel err` for `outerErr = err; continue`. -/
inductive ModelIterOutcome where
  | done (result : QueryResult)
  | nextModel (err : String)
deriving Repr, DecidableEq

/-- One iteration of the per-model loop of
`FunctionCallingProvider.QueryWithOptions` (mcp.go lines 143-188): the
initial `makeRequest`, then — when the response carries tool calls and a tool
executor is configured — the relay: execute the tool calls, and if at least
one result was produced append them as a single `role: "tool"` message and
issue exactly one follow-up `makeRequest`, returning its response directly;
with zero results the original response is returned as-is. The two
`HTTPOutcome` arguments abstract the backend's reaction to the at most two
requests; besides the outcome the function returns the updated quota state
and the message lists of the requests actually sent. -/
def fcModelAttempt (f : FunctionCallingState) (apiMessages : List ApiMessage)
    (toolExecutor : Option (ToolCall → Option ToolCallResult)) (model : String)
    (firstHttp secondHttp : HTTPOutcome) :
    ModelIterOutcome × FunctionCallingState × List (List ApiMessage) :=
  match makeRequest f model firstHttp with
  | (.error err, f1) => (.nextModel err, f1, [apiMessages])
  | (.ok result, f1) =>
    match toolExecutor with
    | none => (.done result, f1, [apiMessages])
    | some exec =>
      if 0 < result.toolCalls.length then
        let toolResults := executeToolCalls exec result.toolCalls
        if 0 < toolResults.length then
          let updatedMessages :=
            apiMessages ++ [ApiMessage.toolResultsMessage toolResults]
          match makeRequest f1 model secondHttp with
          | (.error err, f2) => (.nextModel err, f2, [apiMessages, updatedMessages])
          | (.ok finalResult, f2) =>
            (.done finalResult, f2, [apiMessages, updatedMessages])
        else
          (.done result, f1, [apiMessages])
      else (.done result, f1, [apiMessages])

/-! ## The router (router.go) -/

/-- What the router consumes of the `provider.Provider` interface during one
pass: the provider's `Name()`, its `GetRank()`, the values its
`HasRemainingRequests` and `HasRemainingRequestsPerMinute` checks would
report during this pass, and the outcome of its `QueryWithOptions` as a
function of the messages and options the router hands it. -/
structure ProviderBehavior where
  name : String
  rank : Int
  hasRemaining : Bool
  hasRemainingPerMinute : Bool
  send : List Message → QueryOptions → Except String QueryResult

/-- `ProviderError` (router.go lines 23-26); the wrapped Go `error` is
modelled by its message. -/
structure ProviderError where
  providerName : String
  error : String
deriving Repr, DecidableEq

/-- The two error shapes `Router.Query`/`Router.QueryWithOptions` can return:
the bare `fmt.Errorf("no providers configured")` fallback after the loop, or
a `*RouterError` carrying one record per failed or skipped provider. -/
inductive QueryError where
  | noProvidersConfigured
  | routerError (errors : List ProviderError)
deriving Repr, DecidableEq

/-- Provider-name defaulting inside the loop (router.go lines 181-184):
an empty `Name()` is replaced by the positional placeholder
`"Provider i+1"`. -/
def displayName (p : ProviderBehavior) (i : Nat) : String :=
  if p.name = "" then "Provider " ++ toString (i + 1) else p.name

/-- The defensive message-list copy at the top of `Router.Query` and
`Router.QueryWithOptions` (router.go lines 103-112 and 167-176). -/
def cloneMessages (messages : List Message) : List Message :=
  messages.map fun m =>
    { role := m.role, content := m.content, files := m.files }

/-- `NewRouter` (router.go lines 78-86): fails when no provider is given and
otherwise stores the providers exactly as passed — no reordering of any
kind happens here. -/
def newRouter (providers : List ProviderBehavior) :
    Except String (List ProviderBehavior) :=
  if providers.length = 0 then .error "no providers configured"
  else .ok providers

/-- The provider loop of `Router.QueryWithOptions` (router.go lines 180-204):
for each provider in stored order, resolve its display name, skip it with a
`"no remaining requests"` record when `HasRemainingRequests` reports no
capacity, otherwise invoke its `QueryWithOptions`; return the first success
immediately, and otherwise record the failure and continue. `i` is the loop
index and `acc` the failure records collected so far. -/
def queryLoopRun (messages : List Message) (options : QueryOptions) :
    List ProviderBehavior → Nat → List ProviderError →
    Except (List ProviderError) QueryResult
  | [], _, acc => .error acc
  | p :: ps, i, acc =>
    let providerName := displayName p i
    if !p.hasRemaining then
      queryLoopRun messages options ps (i + 1)
        (acc ++ [{ providerName := providerName, error := "no remaining requests" }])
    else
      match p.send messages options with
      | .ok result => .ok result
      | .error e =>
        queryLoopRun messages options ps (i + 1)
          (acc ++ [{ providerName := providerName, error := e }])

/-- `Router.QueryWithOptions` (router.go lines 165-211): clone the messages,
run the provider loop, and on failure return the aggregated `RouterError`
unless — defensively — no record was collected, in which case the bare
"no providers configured" error is returned. -/
def queryWithOptions (providers : List ProviderBehavior)
    (messages : List Message) (options : QueryOptions) :
    Except QueryError QueryResult :=
  let providerMessages := cloneMessages messages
  match queryLoopRun providerMessages options providers 0 [] with
  | .ok result => .ok result
  | .error errors =>
    if errors.length = 0 then .error .noProvidersConfigured
    else .error (.routerError errors)

/-- The provider loop of the legacy `Router.Query` (router.go lines 121-145):
same structure as the `QueryWithOptions` loop, but on success it projects
the result to `(result.Content, result.Model)` right inside the loop. -/
def queryLoopLegacy (messages : List Message) (options : QueryOptions) :
    List ProviderBehavior → Nat → List ProviderError →
    Except (List ProviderError) (String × String)
  | [], _, acc => .error acc
  | p :: ps, i, acc =>
    let providerName := displayName p i
    if !p.hasRemaining then
      queryLoopLegacy messages options ps (i + 1)
        (acc ++ [{ providerName := providerName, error := "no remaining requests" }])
    else
      match p.send messages options with
      | .ok result => .ok (result.content, result.model)
      | .error e =>
        queryLoopLegacy messages options ps (i + 1)
          (acc ++ [{ providerName := providerName, error := e }])

/-- `Router.Query` (router.go lines 101-152): clone the messages, build
`QueryOptions{Temperature, ForceModel}` (tools and tool choice left at their
zero values), run the legacy loop, and aggregate failures exactly as
`QueryWithOptions` does. -/
def query (providers : List ProviderBehavior) (messages : List Message)
    (temperature : Rat) (forceModel : String) :
    Except QueryError (String × String) :=
  let providerMessages := cloneMessages messages
  let options : QueryOptions :=
    { temperature := temperature, forceModel := forceModel,
      tools := [], toolChoice := "" }
  match queryLoopLegacy providerMessages options providers 0 [] with
  | .ok result => .ok result
  | .error errors =>
    if errors.length = 0 then .error .noProvidersConfigured
    else .error (.routerError errors)

/-- Observable interactions with one provider during a pass: its quota check
(`HasRemainingRequests`) and its send (`QueryWithOptions`), tagged with the
provider's position in the stored order. -/
inductive RouterEvent where
  | quotaChecked (i : Nat)
  | sendInvoked (i : Nat)
deriving Repr, DecidableEq

/-- Position of the provider an event concerns. -/
def eventIndex : RouterEvent → Nat
  | .quotaChecked i => i
  | .sendInvoked i => i

/-- Instrumentation of the `Router.QueryWithOptions` loop (router.go lines
180-204): the sequence of provider interactions the loop performs, in order.
A skipped provider contributes only its quota check; a provider that is sent
to contributes its check and its send; the loop stops right after a
successful send. -/
def queryEvents (messages : List Message) (options : QueryOptions) :
    List ProviderBehavior → Nat → List RouterEvent
  | [], _ => []
  | p :: ps, i =>
    if !p.hasRemaining then
      .quotaChecked i :: queryEvents messages options ps (i + 1)
    else
      match p.send messages options with
      | .ok _ => [.quotaChecked i, .sendInvoked i]
      | .error _ =>
        .quotaChecked i :: .sendInvoked i :: queryEvents messages options ps (i + 1)

/-- Trace of provider interactions of one `Router.QueryWithOptions` call. -/
def queryWithOptionsEvents (providers : List ProviderBehavior)
    (messages : List Message) (options : QueryOptions) : List RouterEvent :=
  queryEvents (cloneMessages messages) options providers 0

/-! ## Specification helpers and lemmas about the router loop -/

/-- A provider that produces no success during a pass: it is either skipped
because its daily check reports no capacity, or its send fails. -/
def attemptFails (messages : List Message) (options : QueryOptions)
    (p : ProviderBehavior) : Prop :=
  p.hasRemaining = false ∨ ∃ e, p.send messages options = .error e

/-- The cause the loop records for a provider that does not succeed:
`"no remaining requests"` when it is skipped, and the send's error
otherwise. -/
def failureCause (messages : List Message) (options : QueryOptions)
    (p : ProviderBehavior) : String :=
  if !p.hasRemaining then "no remaining requests"
  else
    match p.send messages options with
    | .error e => e
    | .ok _ => ""

/-- The failure records a fully failing pass accumulates: one per provider,
in stored order, with the loop's display names. -/
def failureList (messages : List Message) (options : QueryOptions) :
    List ProviderBehavior → Nat → List ProviderError
  | [], _ => []
  | p :: ps, i =>
    { providerName := displayName p i,
      error := failureCause messages options p } ::
      failureList messages options ps (i + 1)

/-- The display names of the providers in stored order, starting at loop
index `i`. -/
def displayNames : List ProviderBehavior → Nat → List String
  | [], _ => []
  | p :: ps, i => displayName p i :: displayNames ps (i + 1)

theorem cloneMessages_eq (messages : List Message) :
    cloneMessages messages = messages := by
  simp [cloneMessages]

theorem failureList_length (messages : List Message) (options : QueryOptions) :
    ∀ (ps : List ProviderBehavior) (i : Nat),
      (failureList messages options ps i).length = ps.length := by
  intro ps
  induction ps with
  | nil => intro i; rfl
  | cons p ps ih => intro i; simp [failureList, ih]

theorem failureList_names (messages : List Message) (options : QueryOptions) :
    ∀ (ps : List ProviderBehavior) (i : Nat),
      (failureList messages options ps i).map ProviderError.providerName =
        displayNames ps i := by
  intro ps
  induction ps with
  | nil => intro i; rfl
  | cons p ps ih => intro i; simp [failureList, displayNames, ih]

theorem queryLoopRun_error_length (messages : List Message)
    (options : QueryOptions) :
    ∀ (ps : List ProviderBehavior) (i : Nat) (acc es : List ProviderError),
      queryLoopRun messages options ps i acc = .error es →
      es.length = acc.length + ps.length := by
  intro ps
  induction ps with
  | nil =>
    intro i acc es h
    simp [queryLoopRun] at h
    subst h
    simp
  | cons p ps ih =>
    intro i acc es h
    cases hp : p.hasRemaining with
    | false =>
      simp [queryLoopRun, hp] at h
      have := ih (i + 1) _ es h
      simp at this ⊢
      omega
    | true =>
      simp [queryLoopRun, hp] at h
      cases hs : p.send messages options with
      | ok r => rw [hs] at h; exact absurd h (by simp)
      | error e =>
        rw [hs] at h
        have := ih (i + 1) _ es h
        simp at this ⊢
        omega

theorem queryLoopRun_all_fail (messages : List Message)
    (options : QueryOptions) :
    ∀ (ps : List ProviderBehavior),
      (∀ p ∈ ps, attemptFails messages options p) →
      ∀ (i : Nat) (acc : List ProviderError),
        queryLoopRun messages options ps i acc =
          .error (acc ++ failureList messages options ps i) := by
  intro ps
  induction ps with
  | nil => intro _ i acc; simp [queryLoopRun, failureList]
  | cons p ps ih =>
    intro hall i acc
    have hp := hall p (by simp)
    have hrest : ∀ q ∈ ps, attemptFails messages options q :=
      fun q hq => hall q (by simp [hq])
    cases hrem : p.hasRemaining with
    | false =>
      simp [queryLoopRun, hrem, ih hrest, failureList, failureCause, hrem]
    | true =>
      rcases hp with hp | ⟨e, he⟩
      · rw [hrem] at hp; exact absurd hp (by simp)
      · simp [queryLoopRun, hrem, he, ih hrest, failureList, failureCause, hrem]

theorem queryLoopRun_prefix_success (messages : List Message)
    (options : QueryOptions) (p : ProviderBehavior)
    (ps₂ : List ProviderBehavior) (r : QueryResult)
    (hrem : p.hasRemaining = true)
    (hok : p.send messages options = .ok r) :
    ∀ (ps₁ : List ProviderBehavior),
      (∀ q ∈ ps₁, attemptFails messages options q) →
      ∀ (i : Nat) (acc : List ProviderError),
        queryLoopRun messages options (ps₁ ++ p :: ps₂) i acc = .ok r := by
  intro ps₁
  induction ps₁ with
  | nil => intro _ i acc; simp [queryLoopRun, hrem, hok]
  | cons q qs ih =>
    intro hall i acc
    have hq := hall q (by simp)
    have hrest : ∀ x ∈ qs, attemptFails messages options x :=
      fun x hx => hall x (by simp [hx])
    cases hqr : q.hasRemaining with
    | false => simp [queryLoopRun, hqr, ih hrest]
    | true =>
      rcases hq with hq | ⟨e, he⟩
      · rw [hqr] at hq; exact absurd hq (by simp)
      · simp [queryLoopRun, hqr, he, ih hrest]

theorem queryEvents_prefix_success (messages : List Message)
    (options : QueryOptions) (p : ProviderBehavior)
    (ps₂ : List ProviderBehavior) (r : QueryResult)
    (hrem : p.hasRemaining = true)
    (hok : p.send messages options = .ok r) :
    ∀ (ps₁ : List ProviderBehavior),
      (∀ q ∈ ps₁, attemptFails messages options q) →
      ∀ (i : Nat),
        queryEvents messages options (ps₁ ++ p :: ps₂) i =
          queryEvents messages options ps₁ i ++
            [.quotaChecked (i + ps₁.length), .sendInvoked (i + ps₁.length)] := by
  intro ps₁
  induction ps₁ with
  | nil => intro _ i; simp [queryEvents, hrem, hok]
  | cons q qs ih =>
    intro hall i
    have hq := hall q (by simp)
    have hrest : ∀ x ∈ qs, attemptFails messages options x :=
      fun x hx => hall x (by simp [hx])
    cases hqr : q.hasRemaining with
    | false =>
      simp [queryEvents, hqr, ih hrest]
      omega
    | true =>
      rcases hq with hq | ⟨e, he⟩
      · rw [hqr] at hq; exact absurd hq (by simp)
      · simp [queryEvents, hqr, he, ih hrest]
        omega

theorem queryEvents_index_lt (messages : List Message)
    (options : QueryOptions) :
    ∀ (ps : List ProviderBehavior) (i : Nat) (e : RouterEvent),
      e ∈ queryEvents messages options ps i → eventIndex e < i + ps.length := by
  intro ps
  induction ps with
  | nil => intro i e h; simp [queryEvents] at h
  | cons p ps ih =>
    intro i e h
    cases hp : p.hasRemaining with
    | false =>
      rw [queryEvents, hp] at h
      simp at h
      rcases h with rfl | h
      · simp [eventIndex]
      · have := ih (i + 1) e h; simp at this ⊢; omega
    | true =>
      rw [queryEvents, hp] at h
      cases hs : p.send messages options with
      | ok r =>
        rw [hs] at h; simp at h
        rcases h with rfl | rfl <;> simp [eventIndex]
      | error err =>
        rw [hs] at h; simp at h
        rcases h with rfl | rfl | h
        · simp [eventIndex]
        · simp [eventIndex]
        · have := ih (i + 1) e h; simp at this ⊢; omega

theorem queryLoopLegacy_eq_run (messages : List Message)
    (options : QueryOptions) :
    ∀ (ps : List ProviderBehavior) (i : Nat) (acc : List ProviderError),
      queryLoopLegacy messages options ps i acc =
        match queryLoopRun messages options ps i acc with
        | .ok r => .ok (r.content, r.model)
        | .error es => .error es := by
  intro ps
  induction ps with
  | nil => intro i acc; simp [queryLoopLegacy, queryLoopRun]
  | cons p ps ih =>
    intro i acc
    cases hp : p.hasRemaining with
    | false => simp [queryLoopLegacy, queryLoopRun, hp, ih]
    | true =>
      cases hs : p.send messages options with
      | ok r => simp [queryLoopLegacy, queryLoopRun, hp, hs]
      | error e => simp [queryLoopLegacy, queryLoopRun, hp, hs, ih]

/-! ## Lemmas about the quota state machine -/

/-- After truncating `t` down to a multiple of `d > 0`, at most `d` has
elapsed since the truncated instant, so a freshly reset window is never
immediately reset again. -/
theorem timeTruncate_window (t d : Int) (hd : 0 < d) :
    t - timeTruncate t d ≤ d := by
  have h := Int.emod_lt_of_pos t hd
  simp [timeTruncate]
  omega

theorem hasRemainingRequests_state_eq (now : Int) (f : FunctionCallingState) :
    (hasRemainingRequests now f).2 =
      if now - f.lastReset > nsPerDay then
        { f with requestsToday := 0, lastReset := timeTruncate now nsPerDay }
      else f := by
  by_cases h : now - f.lastReset > nsPerDay <;>
    simp [hasRemainingRequests, h]

theorem hasRemainingRequestsPerMinute_state_eq (now : Int)
    (f : FunctionCallingState) :
    (hasRemainingRequestsPerMinute now f).2 =
      if now - f.lastMinuteReset > nsPerMinute then
        { f with requestsThisMinute := 0, tokensThisMinute := 0,
                 lastMinuteReset := timeTruncate now nsPerMinute }
      else f := by
  by_cases h : now - f.lastMinuteReset > nsPerMinute <;>
    simp [hasRemainingRequestsPerMinute, h]

theorem hasRemainingTokensPerMinute_state_eq (now estimatedTokens : Int)
    (f : FunctionCallingState) :
    (hasRemainingTokensPerMinute now estimatedTokens f).2 =
      if now - f.lastMinuteReset > nsPerMinute then
        { f with requestsThisMinute := 0, tokensThisMinute := 0,
                 lastMinuteReset := timeTruncate now nsPerMinute }
      else f := by
  by_cases h : now - f.lastMinuteReset > nsPerMinute <;>
    simp [hasRemainingTokensPerMinute, h]

theorem hasRemainingRequests_idem (now : Int) (f : FunctionCallingState) :
    (hasRemainingRequests now (hasRemainingRequests now f).2).2 =
      (hasRemainingRequests now f).2 := by
  have hcond : ¬ (now - (hasRemainingRequests now f).2.lastReset > nsPerDay) := by
    rw [hasRemainingRequests_state_eq]
    by_cases h : now - f.lastReset > nsPerDay
    · rw [if_pos h]
      have hle := timeTruncate_window now nsPerDay (by norm_num [nsPerDay])
      simp only
      omega
    · rw [if_neg h]; exact h
  rw [hasRemainingRequests_state_eq, if_neg hcond]

theorem hasRemainingRequestsPerMinute_idem (now : Int)
    (f : FunctionCallingState) :
    (hasRemainingRequestsPerMinute now
        (hasRemainingRequestsPerMinute now f).2).2 =
      (hasRemainingRequestsPerMinute now f).2 := by
  have hcond :
      ¬ (now - (hasRemainingRequestsPerMinute now f).2.lastMinuteReset >
          nsPerMinute) := by
    rw [hasRemainingRequestsPerMinute_state_eq]
    by_cases h : now - f.lastMinuteReset > nsPerMinute
    · rw [if_pos h]
      have hle := timeTruncate_window now nsPerMinute (by norm_num [nsPerMinute])
      simp only
      omega
    · rw [if_neg h]; exact h
  rw [hasRemainingRequestsPerMinute_state_eq, if_neg hcond]

/-! ## Claim C8 -/

/-- C8: for the provider quota state, a can-serve check evaluated within the
current window leaves the state unchanged (so repeated evaluation never
changes the counters); crossing the 1-minute boundary resets
`requestsThisMinute` and `tokensThisMinute` together against their shared
window start and touches nothing else (in particular not `requestsToday`);
crossing the daily boundary resets only `requestsToday` and its window start
and leaves the per-minute counters alone; and a boundary crossing resets
exactly once — re-evaluating the same check at the same instant is a
no-op. -/
theorem c8_quota_window_resets (f : FunctionCallingState)
    (now estimatedTokens : Int) :
    (now - f.lastReset ≤ nsPerDay → (hasRemainingRequests now f).2 = f) ∧
    (now - f.lastMinuteReset ≤ nsPerMinute →
      (hasRemainingRequestsPerMinute now f).2 = f) ∧
    (now - f.lastMinuteReset ≤ nsPerMinute →
      (hasRemainingTokensPerMinute now estimatedTokens f).2 = f) ∧
    (now - f.lastReset > nsPerDay →
      (hasRemainingRequests now f).2 =
        { f with requestsToday := 0,
                 lastReset := timeTruncate now nsPerDay }) ∧
    (now - f.lastMinuteReset > nsPerMinute →
      (hasRemainingRequestsPerMinute now f).2 =
        { f with requestsThisMinute := 0, tokensThisMinute := 0,
                 lastMinuteReset := timeTruncate now nsPerMinute }) ∧
    (now - f.lastMinuteReset > nsPerMinute →
      (hasRemainingTokensPerMinute now estimatedTokens f).2 =
        { f with requestsThisMinute := 0, tokensThisMinute := 0,
                 lastMinuteReset := timeTruncate now nsPerMinute }) ∧
    (hasRemainingRequests now (hasRemainingRequests now f).2).2 =
      (hasRemainingRequests now f).2 ∧
    (hasRemainingRequestsPerMinute now
        (hasRemainingRequestsPerMinute now f).2).2 =
      (hasRemainingRequestsPerMinute now f).2 := by
  refine ⟨?_, ?_, ?_, ?_, ?_, ?_,
    hasRemainingRequests_idem now f, hasRemainingRequestsPerMinute_idem now f⟩
  · intro h
    rw [hasRemainingRequests_state_eq, if_neg (by omega)]
  · intro h
    rw [hasRemainingRequestsPerMinute_state_eq, if_neg (by omega)]
  · intro h
    rw [hasRemainingTokensPerMinute_state_eq, if_neg (by omega)]
  · intro h
    rw [hasRemainingRequests_state_eq, if_pos h]
  · intro h
    rw [hasRemainingRequestsPerMinute_state_eq, if_pos h]
  · intro h
    rw [hasRemainingTokensPerMinute_state_eq, if_pos h]

/-- State used to exercise the C8 theorem: counters mid-window, the daily
window entered 1000 seconds ago, the minute window 90 seconds ago (so the
minute boundary has been crossed but the daily one has not). `1s = 10^9 ns`. -/
def c8State : FunctionCallingState :=
  { maxDailyRequests := 100, maxRequestsPerMinute := 10, maxTokensPerMinute := 500,
    rank := 2, requestsToday := 7, requestsThisMinute := 3, tokensThisMinute := 120,
    lastReset := 0, lastMinuteReset := 910000000000 }

/-- Instant at which `c8State` is observed: 1000 seconds. -/
def c8Now : Int := 1000000000000

theorem c8_quota_window_resets_witness :
    c8Now - c8State.lastReset ≤ nsPerDay ∧
    c8Now - c8State.lastMinuteReset > nsPerMinute ∧
    (hasRemainingRequests c8Now c8State).2 = c8State ∧
    (hasRemainingRequestsPerMinute c8Now c8State).2 =
      { c8State with requestsThisMinute := 0, tokensThisMinute := 0,
                     lastMinuteReset := timeTruncate c8Now nsPerMinute } :=
  ⟨by decide, by decide,
   (c8_quota_window_resets c8State c8Now 0).1 (by decide),
   (c8_quota_window_resets c8State c8Now 0).2.2.2.2.1 (by decide)⟩

/-! ## Claim C3 -/

/-- Whether the abstracted HTTP exchange delivered a response with status
200 (the point in `makeRequest` at which the counters are incremented). -/
def received200 : HTTPOutcome → Bool
  | .transportError _ => false
  | .response status _ => status == 200

/-- A quota state in the middle of a day, with some usage recorded. -/
def c3State : FunctionCallingState :=
  { maxDailyRequests := 50, maxRequestsPerMinute := 10, maxTokensPerMinute := 0,
    rank := 1, requestsToday := 3, requestsThisMinute := 1, tokensThisMinute := 0,
    lastReset := 0, lastMinuteReset := 0 }

/-- C3 counterexample: a request whose HTTP exchange returns status 200 with
a body that fails to parse makes the attempt fail, yet `requestsToday` and
`requestsThisMinute` are both incremented — a failed attempt that does
consume quota, contradicting "incremented only when the provider call
succeeds end to end". -/
theorem c3_counterexample :
    (makeRequest c3State "model-a" (.response 200 .malformed)).1 =
      .error "failed to parse response" ∧
    (makeRequest c3State "model-a" (.response 200 .malformed)).2.requestsToday =
      c3State.requestsToday + 1 ∧
    (makeRequest c3State "model-a"
        (.response 200 .malformed)).2.requestsThisMinute =
      c3State.requestsThisMinute + 1 := by
  refine ⟨rfl, rfl, rfl⟩

/-- C3 as amended: `makeRequest` increments `requestsToday` and
`requestsThisMinute` exactly when the HTTP exchange delivers a status-200
response — before the body is parsed — so an attempt that fails at the
transport or with a non-200 status leaves every counter unchanged, while an
attempt that fails afterwards (malformed body, empty choices) still
consumes quota; `tokensThisMinute` and all window/limit fields are never
modified by `makeRequest`. -/
theorem c3_amended_counters_on_http200 (f : FunctionCallingState)
    (model : String) (http : HTTPOutcome) :
    (makeRequest f model http).2 =
      (if received200 http then
        { f with requestsToday := f.requestsToday + 1,
                 requestsThisMinute := f.requestsThisMinute + 1 }
       else f) := by
  match http with
  | .transportError msg => simp [makeRequest, received200]
  | .response status body =>
    by_cases h : status = 200
    · subst h
      cases body with
      | malformed => simp [makeRequest, received200]
      | parsed choices =>
        cases choices with
        | nil => simp [makeRequest, received200]
        | cons c cs => simp [makeRequest, received200]
    · have hb : (status == 200) = false := by simpa using h
      simp [makeRequest, received200, hb, h]

/-! ## Claim C4 -/

/-- Gemini quota state configured with a limit of 0 and no usage at all. -/
def c4GeminiZero : GeminiState :=
  { maxDailyRequests := 0, requestsToday := 0, lastReset := 0 }

/-- Function-calling quota state with every limit 0 and plenty of usage. -/
def c4FCZero : FunctionCallingState :=
  { maxDailyRequests := 0, maxRequestsPerMinute := 0, maxTokensPerMinute := 0,
    rank := 0, requestsToday := 1000, requestsThisMinute := 1000,
    tokensThisMinute := 1000, lastReset := 0, lastMinuteReset := 0 }

/-- OpenRouter quota state with a daily limit of 0 and recorded usage. -/
def c4ORZero : OpenRouterState :=
  { maxDailyRequests := 0, maxRequestsPerMinute := 0, maxTokensPerMinute := 0,
    rank := 0, requestsToday := 1000, requestsThisMinute := 0,
    tokensThisMinute := 0, lastReset := 0, lastMinuteReset := 0 }

/-- C4 evaluated at the failing input: the function-calling and OpenRouter
providers honour the `limit == 0` sentinel in every dimension (reporting
capacity even after heavy recorded usage), but `GeminiProvider`'s daily
check is `requestsToday < maxDailyRequests` with no sentinel branch, so a
Gemini provider configured with `maxDailyRequests = 0` reports no capacity
even with zero recorded requests — 0 means "zero capacity" there, not
"unlimited". -/
theorem c4_gemini_zero_daily_limit :
    geminiHasRemainingRequests c4GeminiZero = false ∧
    (hasRemainingRequests 0 c4FCZero).1 = true ∧
    (hasRemainingRequestsPerMinute 0 c4FCZero).1 = true ∧
    (hasRemainingTokensPerMinute 0 100 c4FCZero).1 = true ∧
    (openRouterHasRemainingRequests 0 c4ORZero).1 = true := by
  decide

/-! ## Claims C1 and C2 -/

/-- Zero-valued query options (temperature 0, no forced model, no tools). -/
def defaultOptions : QueryOptions :=
  { temperature := 0, forceModel := "", tools := [], toolChoice := "" }

/-- A provider registered first with the lower rank 1; its send fails. -/
def c1LowRank : ProviderBehavior :=
  { name := "LowRank", rank := 1, hasRemaining := true,
    hasRemainingPerMinute := true,
    send := fun _ _ => .error "low-rank provider failed" }

/-- A provider registered second with the higher rank 3; its send fails. -/
def c1HighRank : ProviderBehavior :=
  { name := "HighRank", rank := 3, hasRemaining := true,
    hasRemainingPerMinute := true,
    send := fun _ _ => .error "high-rank provider failed" }

/-- C1 evaluated at the failing input: with the rank-1 provider registered
before the rank-3 provider, the router checks and sends to the rank-1
provider first and records its failure first — iteration happens in
registration order, never consulting `GetRank`, although the claim (and the
repository's own example documentation) requires the rank-3 provider to be
attempted first. -/
theorem c1_providers_not_sorted_by_rank :
    c1LowRank.rank = 1 ∧ c1HighRank.rank = 3 ∧
    queryWithOptionsEvents [c1LowRank, c1HighRank] [] defaultOptions =
      [.quotaChecked 0, .sendInvoked 0, .quotaChecked 1, .sendInvoked 1] ∧
    queryWithOptions [c1LowRank, c1HighRank] [] defaultOptions =
      .error (.routerError
        [{ providerName := "LowRank", error := "low-rank provider failed" },
         { providerName := "HighRank",
           error := "high-rank provider failed" }]) := by
  refine ⟨rfl, rfl, rfl, rfl⟩

/-- Quota state with daily capacity available (`0 < 5` requests used) but the
per-minute budget exhausted (`1` of `1` requests this minute), both windows
current. -/
def c2State : FunctionCallingState :=
  { maxDailyRequests := 5, maxRequestsPerMinute := 1, maxTokensPerMinute := 0,
    rank := 0, requestsToday := 0, requestsThisMinute := 1, tokensThisMinute := 0,
    lastReset := 0, lastMinuteReset := 0 }

/-- The result the C2 provider's send returns when invoked. -/
def c2Result : QueryResult :=
  { content := "answer", model := "model-a", toolCalls := [], finishReason := "stop" }

/-- A provider whose checks report the `c2State` quota situation: daily
capacity available, per-minute capacity exhausted. -/
def c2Provider : ProviderBehavior :=
  { name := "FunctionCalling", rank := 0,
    hasRemaining := (hasRemainingRequests 0 c2State).1,
    hasRemainingPerMinute := (hasRemainingRequestsPerMinute 0 c2State).1,
    send := fun _ _ => .ok c2Result }

/-- C2 evaluated at the failing input: the provider's per-minute check
reports no capacity, yet the router — which consults only
`HasRemainingRequests` — invokes the provider's send anyway and returns its
result, instead of skipping it with a "no remaining requests" failure
record as the claim requires. -/
theorem c2_per_minute_check_not_consulted :
    (hasRemainingRequestsPerMinute 0 c2State).1 = false ∧
    (hasRemainingRequests 0 c2State).1 = true ∧
    queryWithOptionsEvents [c2Provider] [] defaultOptions =
      [.quotaChecked 0, .sendInvoked 0] ∧
    queryWithOptions [c2Provider] [] defaultOptions = .ok c2Result := by
  refine ⟨by decide, by decide, rfl, rfl⟩

theorem queryWithOptions_eq (providers : List ProviderBehavior)
    (messages : List Message) (options : QueryOptions) :
    queryWithOptions providers messages options =
      match queryLoopRun (cloneMessages messages) options providers 0 [] with
      | .ok result => .ok result
      | .error errors =>
        if errors.length = 0 then .error .noProvidersConfigured
        else .error (.routerError errors) := rfl

theorem query_eq (providers : List ProviderBehavior)
    (messages : List Message) (temperature : Rat) (forceModel : String) :
    query providers messages temperature forceModel =
      match queryLoopLegacy (cloneMessages messages)
          { temperature := temperature, forceModel := forceModel,
            tools := [], toolChoice := "" } providers 0 [] with
      | .ok result => .ok result
      | .error errors =>
        if errors.length = 0 then .error .noProvidersConfigured
        else .error (.routerError errors) := rfl

/-! ## Claim C5 -/

/-- C5: when every provider of a non-empty router either fails or is skipped
for quota during a `QueryWithOptions` pass, the call returns a
`RouterError` whose failure list has exactly one record per provider — as
many records as providers, carrying the providers' display names in
iteration order — and that list is non-empty. -/
theorem c5_exhaustive_failure_list (providers : List ProviderBehavior)
    (messages : List Message) (options : QueryOptions)
    (hne : providers ≠ [])
    (hall : ∀ p ∈ providers, attemptFails messages options p) :
    queryWithOptions providers messages options =
      .error (.routerError (failureList messages options providers 0)) ∧
    (failureList messages options providers 0).length = providers.length ∧
    (failureList messages options providers 0).map ProviderError.providerName =
      displayNames providers 0 ∧
    failureList messages options providers 0 ≠ [] := by
  have hlen := failureList_length messages options providers 0
  have hpos : providers.length ≠ 0 := by
    simpa using fun h => hne (List.length_eq_zero.mp h)
  refine ⟨?_, hlen, failureList_names messages options providers 0, ?_⟩
  · rw [queryWithOptions_eq, cloneMessages_eq,
      queryLoopRun_all_fail messages options providers hall 0 []]
    simp only [List.nil_append]
    have hne0 : (failureList messages options providers 0).length ≠ 0 := by omega
    simp [hne0]
  · intro h
    rw [h] at hlen
    exact hpos hlen.symm

/-- A provider with an empty name whose daily check reports no capacity. -/
def c5SkipProvider : ProviderBehavior :=
  { name := "", rank := 3, hasRemaining := false,
    hasRemainingPerMinute := true,
    send := fun _ _ => .ok c2Result }

/-- A provider with daily capacity whose send fails with a 429. -/
def c5FailProvider : ProviderBehavior :=
  { name := "OpenRouter", rank := 1, hasRemaining := true,
    hasRemainingPerMinute := true,
    send := fun _ _ => .error "API request failed with status 429" }

theorem c5_exhaustive_failure_list_witness :
    c5SkipProvider.hasRemaining = false ∧
    c5FailProvider.send [] defaultOptions =
      .error "API request failed with status 429" ∧
    queryWithOptions [c5SkipProvider, c5FailProvider] [] defaultOptions =
      .error (.routerError
        [{ providerName := "Provider 1", error := "no remaining requests" },
         { providerName := "OpenRouter",
           error := "API request failed with status 429" }]) := by
  refine ⟨rfl, rfl, ?_⟩
  have h := (c5_exhaustive_failure_list [c5SkipProvider, c5FailProvider] []
    defaultOptions (by simp)
    (by
      intro q hq
      rcases List.mem_cons.mp hq with rfl | hq
      · exact Or.inl rfl
      rcases List.mem_cons.mp hq with rfl | hq
      · exact Or.inr ⟨"API request failed with status 429", rfl⟩
      · simp at hq)).1
  rw [h]
  rfl

/-! ## Claim C6 -/

/-- C6: when the providers before `p` all fail or are skipped and `p`'s
quota check and send both succeed, `QueryWithOptions` returns `p`'s result,
and no provider after `p`'s position is interacted with at all — every
event of the pass concerns a provider at position at most `p`'s. -/
theorem c6_first_success_wins (providers₁ providers₂ : List ProviderBehavior)
    (p : ProviderBehavior) (messages : List Message) (options : QueryOptions)
    (r : QueryResult)
    (hfail : ∀ q ∈ providers₁, attemptFails (cloneMessages messages) options q)
    (hrem : p.hasRemaining = true)
    (hok : p.send (cloneMessages messages) options = .ok r) :
    queryWithOptions (providers₁ ++ p :: providers₂) messages options =
      .ok r ∧
    ∀ e ∈ queryWithOptionsEvents (providers₁ ++ p :: providers₂)
        messages options,
      eventIndex e ≤ providers₁.length := by
  constructor
  · rw [queryWithOptions_eq,
      queryLoopRun_prefix_success (cloneMessages messages) options p
        providers₂ r hrem hok providers₁ hfail 0 []]
  · intro e he
    unfold queryWithOptionsEvents at he
    rw [queryEvents_prefix_success (cloneMessages messages) options p
      providers₂ r hrem hok providers₁ hfail 0] at he
    rcases List.mem_append.mp he with he | he
    · have := queryEvents_index_lt (cloneMessages messages) options
        providers₁ 0 e he
      omega
    · simp at he
      rcases he with rfl | rfl <;> simp [eventIndex]

/-- A provider that fails with an overloaded error. -/
def c6FailProvider : ProviderBehavior :=
  { name := "Gemini", rank := 3, hasRemaining := true,
    hasRemainingPerMinute := true,
    send := fun _ _ => .error "failed to generate content" }

/-- The result the succeeding provider returns. -/
def c6Result : QueryResult :=
  { content := "hello", model := "model-b", toolCalls := [], finishReason := "stop" }

/-- The provider at position 1, which succeeds. -/
def c6WinProvider : ProviderBehavior :=
  { name := "OpenRouter", rank := 2, hasRemaining := true,
    hasRemainingPerMinute := true,
    send := fun _ _ => .ok c6Result }

/-- A later provider that would also succeed and has quota available; it
must never be consulted. -/
def c6LaterProvider : ProviderBehavior :=
  { name := "FunctionCalling", rank := 1, hasRemaining := true,
    hasRemainingPerMinute := true,
    send := fun _ _ => .ok c2Result }

theorem c6_first_success_wins_witness :
    c6FailProvider.send [] defaultOptions =
      .error "failed to generate content" ∧
    c6WinProvider.hasRemaining = true ∧
    queryWithOptions [c6FailProvider, c6WinProvider, c6LaterProvider] []
      defaultOptions = .ok c6Result ∧
    queryWithOptionsEvents [c6FailProvider, c6WinProvider, c6LaterProvider] []
      defaultOptions =
      [.quotaChecked 0, .sendInvoked 0, .quotaChecked 1, .sendInvoked 1] := by
  refine ⟨rfl, rfl, ?_, rfl⟩
  exact (c6_first_success_wins [c6FailProvider] [c6LaterProvider]
    c6WinProvider [] defaultOptions c6Result
    (by
      intro q hq
      rcases List.mem_cons.mp hq with rfl | hq
      · exact Or.inr ⟨"failed to generate content", rfl⟩
      · simp at hq)
    rfl rfl).1

/-! ## Claim C9 -/

/-- The projection the claim describes: run `Router.QueryWithOptions` with
`QueryOptions{Temperature, ForceModel}` and map a success to its
`(Content, Model)` pair, passing an error through unchanged. -/
def queryViaQueryWithOptions (providers : List ProviderBehavior)
    (messages : List Message) (temperature : Rat) (forceModel : String) :
    Except QueryError (String × String) :=
  match queryWithOptions providers messages
      { temperature := temperature, forceModel := forceModel,
        tools := [], toolChoice := "" } with
  | .ok r => .ok (r.content, r.model)
  | .error e => .error e

/-- C9: for every provider list, message list, temperature and forced model,
the legacy `Router.Query` coincides with projecting
`Router.QueryWithOptions` at the corresponding options: a success becomes
`(result.Content, result.Model)` and a failure carries the identical
per-provider failure records in the identical order. -/
theorem c9_query_projection (providers : List ProviderBehavior)
    (messages : List Message) (temperature : Rat) (forceModel : String) :
    query providers messages temperature forceModel =
      queryViaQueryWithOptions providers messages temperature forceModel := by
  rw [query_eq]
  unfold queryViaQueryWithOptions
  rw [queryWithOptions_eq, queryLoopLegacy_eq_run]
  cases hrun : queryLoopRun (cloneMessages messages)
      { temperature := temperature, forceModel := forceModel,
        tools := [], toolChoice := "" } providers 0 [] with
  | ok r => simp
  | error es =>
    by_cases hlen : es.length = 0 <;> simp [hlen]

/-! ## Claim C10 -/

/-- C10: for a router successfully built by `NewRouter` (hence holding at
least one provider), the defensive bare "no providers configured" error
after the provider loop is unreachable in both `Query` and
`QueryWithOptions` — every full pass that does not succeed yields a
`RouterError` whose failure list has exactly one record per provider and in
particular is non-empty. -/
theorem c10_fallback_unreachable (providers : List ProviderBehavior)
    (messages : List Message) (options : QueryOptions)
    (temperature : Rat) (forceModel : String)
    (hrouter : newRouter providers = .ok providers) :
    queryWithOptions providers messages options ≠
      .error .noProvidersConfigured ∧
    query providers messages temperature forceModel ≠
      .error .noProvidersConfigured ∧
    (∀ es, queryWithOptions providers messages options =
        .error (.routerError es) →
      es.length = providers.length ∧ es ≠ []) := by
  have hpos : providers.length ≠ 0 := by
    intro h
    rw [newRouter, if_pos h] at hrouter
    exact Except.noConfusion hrouter
  refine ⟨?_, ?_, ?_⟩
  · rw [queryWithOptions_eq]
    cases hrun : queryLoopRun (cloneMessages messages) options providers 0 [] with
    | ok r => simp
    | error es =>
      have hl := queryLoopRun_error_length (cloneMessages messages) options
        providers 0 [] es hrun
      simp only [List.length_nil, Nat.zero_add] at hl
      have hne0 : es.length ≠ 0 := by omega
      simp [hne0]
  · rw [query_eq, queryLoopLegacy_eq_run]
    cases hrun : queryLoopRun (cloneMessages messages)
        { temperature := temperature, forceModel := forceModel,
          tools := [], toolChoice := "" } providers 0 [] with
    | ok r => simp
    | error es =>
      have hl := queryLoopRun_error_length (cloneMessages messages) _
        providers 0 [] es hrun
      simp only [List.length_nil, Nat.zero_add] at hl
      have hne0 : es.length ≠ 0 := by omega
      simp [hne0]
  · intro es hes
    rw [queryWithOptions_eq] at hes
    cases hrun : queryLoopRun (cloneMessages messages) options providers 0 [] with
    | ok r => rw [hrun] at hes; exact absurd hes (by simp)
    | error es₀ =>
      have hl := queryLoopRun_error_length (cloneMessages messages) options
        providers 0 [] es₀ hrun
      simp only [List.length_nil, Nat.zero_add] at hl
      rw [hrun] at hes
      have hne0 : es₀.length ≠ 0 := by omega
      simp [hne0] at hes
      subst hes
      refine ⟨hl, ?_⟩
      intro h
      rw [h] at hl
      simp at hl
      omega

/-- The single provider of the C10 instantiation; its send fails. -/
def c10Provider : ProviderBehavior :=
  { name := "Gemini", rank := 1, hasRemaining := true,
    hasRemainingPerMinute := true,
    send := fun _ _ => .error "failed to generate content" }

theorem c10_fallback_unreachable_witness :
    newRouter [c10Provider] = .ok [c10Provider] ∧
    queryWithOptions [c10Provider] [] defaultOptions ≠
      .error .noProvidersConfigured ∧
    query [c10Provider] [] 0 "" ≠ .error .noProvidersConfigured :=
  ⟨rfl,
   (c10_fallback_unreachable [c10Provider] [] defaultOptions 0 "" rfl).1,
   (c10_fallback_unreachable [c10Provider] [] defaultOptions 0 "" rfl).2.1⟩

/-! ## Claim C7 -/

/-- C7: in the tool-call relay, when the initial request succeeds with a
response carrying tool calls, each tool call whose executor invocation
fails is dropped without failing the request: if the executions produce
zero results the original response is returned unchanged after the single
initial send, and if they produce at least one result exactly one follow-up
send is issued — with the collected results appended to the conversation as
one tool message — and, when it succeeds, that second response is returned
directly as the final result, with no further round trips regardless of its
own contents. -/
theorem c7_tool_relay (f f1 : FunctionCallingState)
    (apiMessages : List ApiMessage)
    (exec : ToolCall → Option ToolCallResult) (model : String)
    (firstHttp secondHttp : HTTPOutcome) (r : QueryResult)
    (hfirst : makeRequest f model firstHttp = (.ok r, f1))
    (htc : 0 < r.toolCalls.length) :
    (executeToolCalls exec r.toolCalls = [] →
      fcModelAttempt f apiMessages (some exec) model firstHttp secondHttp =
        (.done r, f1, [apiMessages])) ∧
    (∀ (r2 : QueryResult) (f2 : FunctionCallingState),
      0 < (executeToolCalls exec r.toolCalls).length →
      makeRequest f1 model secondHttp = (.ok r2, f2) →
      fcModelAttempt f apiMessages (some exec) model firstHttp secondHttp =
        (.done r2, f2,
         [apiMessages,
          apiMessages ++ [ApiMessage.toolResultsMessage
            (executeToolCalls exec r.toolCalls)]])) := by
  constructor
  · intro hzero
    simp [fcModelAttempt, hfirst, htc, hzero]
  · intro r2 f2 hpos hsecond
    simp [fcModelAttempt, hfirst, htc, hpos, hsecond]

/-- Tool call whose execution will fail in the C7 instantiation. -/
def c7Call1 : ToolCall :=
  { id := "call-1", callType := "function",
    function := { name := "get_current_time", arguments := [] } }

/-- Tool call whose execution will succeed in the C7 instantiation. -/
def c7Call2 : ToolCall :=
  { id := "call-2", callType := "function",
    function := { name := "calculate",
                  arguments := [("expression", "15 * 23")] } }

/-- Tool call contained in the second response, which must not trigger
another round trip. -/
def c7CallAgain : ToolCall :=
  { id := "call-3", callType := "function",
    function := { name := "calculate", arguments := [] } }

/-- The result produced for `c7Call2`. -/
def c7SuccessResult : ToolCallResult :=
  { id := "call-2", resultType := "function", content := "345" }

/-- Executor failing on `call-1` and succeeding on everything else. -/
def c7Exec : ToolCall → Option ToolCallResult := fun tc =>
  if tc.id = "call-1" then none
  else some { id := tc.id, resultType := "function", content := "345" }

/-- Fresh quota state for the C7 instantiation. -/
def c7State : FunctionCallingState :=
  { maxDailyRequests := 0, maxRequestsPerMinute := 0, maxTokensPerMinute := 0,
    rank := 0, requestsToday := 0, requestsThisMinute := 0,
    tokensThisMinute := 0, lastReset := 0, lastMinuteReset := 0 }

/-- HTTP outcome of the initial request: a 200 response whose single choice
requests two tool calls. -/
def c7First : HTTPOutcome :=
  .response 200 (.parsed
    [{ content := "", toolCalls := [c7Call1, c7Call2],
       finishReason := "tool_calls" }])

/-- HTTP outcome of the follow-up request: a 200 response whose single
choice itself contains a further tool call. -/
def c7Second : HTTPOutcome :=
  .response 200 (.parsed
    [{ content := "The answer is 345.", toolCalls := [c7CallAgain],
       finishReason := "stop" }])

/-- Parsed result of the initial request. -/
def c7FirstResult : QueryResult :=
  { content := "", model := "gpt-4", toolCalls := [c7Call1, c7Call2],
    finishReason := "tool_calls" }

/-- Quota state after the initial request. -/
def c7State1 : FunctionCallingState :=
  { c7State with requestsToday := 1, requestsThisMinute := 1 }

/-- Parsed result of the follow-up request. -/
def c7SecondResult : QueryResult :=
  { content := "The answer is 345.", model := "gpt-4",
    toolCalls := [c7CallAgain], finishReason := "stop" }

/-- Quota state after both requests. -/
def c7State2 : FunctionCallingState :=
  { c7State with requestsToday := 2, requestsThisMinute := 2 }

/-- The conversation sent with the initial request. -/
def c7Messages : List ApiMessage :=
  [toApiMessage { role := "user", content := "What is 15 * 23?", files := [] }]

theorem c7_tool_relay_witness :
    c7Exec c7Call1 = none ∧
    c7Exec c7Call2 = some c7SuccessResult ∧
    executeToolCalls c7Exec [c7Call1, c7Call2] = [c7SuccessResult] ∧
    0 < c7SecondResult.toolCalls.length ∧
    fcModelAttempt c7State c7Messages (some c7Exec) "gpt-4" c7First c7Second =
      (.done c7SecondResult, c7State2,
       [c7Messages,
        c7Messages ++ [ApiMessage.toolResultsMessage [c7SuccessResult]]]) := by
  refine ⟨rfl, rfl, rfl, by decide, ?_⟩
  have h := (c7_tool_relay c7State c7State1 c7Messages c7Exec "gpt-4"
    c7First c7Second c7FirstResult rfl (by decide)).2
    c7SecondResult c7State2 (by decide) rfl
  rw [h]
  rfl

end LLMRouter
